import Mathlib

/-!
# Coin-counting FSM of the pool-table controller: a shallow embedding

This file embeds the finite-state machine of the coin-counting sketch
(the three handler functions `process_DRAWER_CLOSED_state`,
`process_DRAWER_OPEN_state` and `process_OPEN_FOR_TOO_LONG_state`) and
proves properties of it.

Modelling decisions, each traced to the source:

* The mutable globals `state`, `TIMEOUT`, `openTime`, `coinCount` become the
  fields of a `Machine` record.
* The source accumulates `openTime` (a C `float`) by `0.1` per 100 ms tick and
  compares it to the integer `TIMEOUT` (seconds).  Two timer models are used.
  The tick-count model (`tickAux`) counts elapsed time exactly in tenths of a
  second — `openTime` counts ticks since its last reset, thresholds scaled by
  ten: the source's `TIMEOUT = 18` is `180` tenths, the `TIMEOUT = 3` set on
  entering `OPEN_FOR_TOO_LONG` is `30`.  It captures the branch structure,
  publish order and the spec's tick-denominated scenario thresholds, but it
  idealises the float accumulation, whose rounding moves one observable
  crossing: the binary32 sum of thirty `0.1f` is `12582909 / 2 ^ 22 =
  2.9999992…`, short of the threshold `3.0`, which is first reached on the
  31st increment (the `18.0` threshold is reached exactly on the 180th
  increment, where the two models agree).  The exact binary32 model (`F32`,
  `tickAuxF` below) reproduces the float accumulation bit for bit and is
  used where that crossing matters — the stuck re-notification cadence.
* The two hard-coded threshold constants (`18` restored on closing, `3` set on
  promotion) are lifted into a `Config` record so that the spec's compressed
  test scales can be expressed; `defaultConfig` is the source's pair.
* A sensor reading is sampled once per tick; `digitalRead(2) == HIGH` means
  the light is blocked (lever pulled, drawer open), per the INPUT_PULLUP
  wiring described at the top of the sketch.
* Each handler may `deactivateTimer`, assign the next state and call the next
  handler directly, so one timer callback (one tick) can run a chain of
  handlers.  The chain is modelled faithfully by `tickAux` with explicit fuel
  standing for the call depth of the mutual recursion; `tick` runs it with
  fuel 4, and we prove fuel 3 always suffices.
* MQTT publishes are collected, in call order, as an `Event` list: the
  numeric coin-count publishes and the three fixed text messages.  Serial
  prints and the `Ticker` attach/detach calls are scheduling/debug
  collaborators outside the FSM and are not modelled.
-/

namespace CoinFSM

/-- The `enum State` of the source. -/
inductive State where
  | DRAWER_CLOSED
  | DRAWER_OPEN
  | OPEN_FOR_TOO_LONG
deriving DecidableEq, Repr

/-- The sensor reading sampled on a tick, named as in the spec. -/
inductive SensorState where
  | LIGHT_ON
  | LIGHT_BLOCKED
deriving DecidableEq, Repr

/-- The value of `digitalRead(2)`: `true` = HIGH.  With the LDR feeding the
transistor base and GPIO2 on INPUT_PULLUP, HIGH means the light is blocked. -/
def digitalReadHigh : SensorState → Bool
  | SensorState.LIGHT_ON => false
  | SensorState.LIGHT_BLOCKED => true

/-- One observable publish side effect (MQTT). -/
inductive Event where
  | publishCount (n : Nat)
  | publishText (msg : String)
deriving DecidableEq, Repr

/-- Text published on the `OPEN → OPEN_FOR_TOO_LONG` edge. -/
def openTooLongMsg : String := "Pool table is open for too long"

/-- Text published periodically while stuck in `OPEN_FOR_TOO_LONG`. -/
def keepsOpenMsg : String := "Pool table keeps open for too long"

/-- Text published on the `OPEN_FOR_TOO_LONG → DRAWER_CLOSED` edge. -/
def finallyClosedMsg : String := "Pool table drawer was finally closed"

/-- The two threshold constants, in tenths of a second (= ticks of 100 ms).
The source hard-codes them (`TIMEOUT = 18` initially and on recovery,
`TIMEOUT = 3` on promotion, both in seconds of exact accumulation). -/
structure Config where
  longTimeout : Nat
  shortTimeout : Nat
deriving DecidableEq, Repr

/-- The source's constants: 18 s = 180 tenths, 3 s = 30 tenths. -/
def defaultConfig : Config := ⟨180, 30⟩

/-- The mutable globals of the sketch. `timeout` is the active threshold
(the global `TIMEOUT`), `openTime` the elapsed-open accumulator in tenths. -/
structure Machine where
  state : State
  timeout : Nat
  openTime : Nat
  coinCount : Nat
deriving DecidableEq, Repr

/-- Machine state right after `setup()`: `state = DRAWER_CLOSED`,
`TIMEOUT` at its long value, `openTime = 0`, `coinCount = 0`. -/
def initMachine (cfg : Config) : Machine :=
  ⟨State.DRAWER_CLOSED, cfg.longTimeout, 0, 0⟩

/-- One timer callback, with `fuel` bounding the depth of the chain of
handler calls (`process_X_state` calling `process_Y_state` directly after a
transition).  Each branch mirrors its handler line by line:

* `DRAWER_CLOSED` (`process_DRAWER_CLOSED_state`): zero `openTime`; on HIGH
  go to `DRAWER_OPEN` and run its handler.
* `DRAWER_OPEN` (`process_DRAWER_OPEN_state`): `openTime += 0.1`; if
  `openTime >= TIMEOUT` promote to `OPEN_FOR_TOO_LONG` (set `TIMEOUT` short,
  zero `openTime`, publish the open-too-long text, run the next handler);
  else on LOW increment `coinCount`, publish it, go to `DRAWER_CLOSED` and
  run its handler.
* `OPEN_FOR_TOO_LONG` (`process_OPEN_FOR_TOO_LONG_state`): `openTime += 0.1`;
  on LOW increment `coinCount`, publish it, publish the finally-closed text,
  restore the long `TIMEOUT`, zero `openTime`, go to `DRAWER_CLOSED` and run
  its handler; else if `openTime >= TIMEOUT` publish the keeps-open text and
  zero `openTime`. -/
def tickAux (cfg : Config) : Nat → SensorState → Machine → Option (Machine × List Event)
  | 0, _, _ => none
  | fuel + 1, s, m =>
    match m.state with
    | State.DRAWER_CLOSED =>
      let m1 : Machine := { m with openTime := 0 }
      if digitalReadHigh s then
        tickAux cfg fuel s { m1 with state := State.DRAWER_OPEN }
      else
        some (m1, [])
    | State.DRAWER_OPEN =>
      let m1 : Machine := { m with openTime := m.openTime + 1 }
      if m1.timeout ≤ m1.openTime then
        let m2 : Machine := { m1 with state := State.OPEN_FOR_TOO_LONG,
                                      timeout := cfg.shortTimeout, openTime := 0 }
        (tickAux cfg fuel s m2).map
          (fun r => (r.1, Event.publishText openTooLongMsg :: r.2))
      else if digitalReadHigh s = false then
        let m2 : Machine := { m1 with coinCount := m1.coinCount + 1,
                                      state := State.DRAWER_CLOSED }
        (tickAux cfg fuel s m2).map
          (fun r => (r.1, Event.publishCount m2.coinCount :: r.2))
      else
        some (m1, [])
    | State.OPEN_FOR_TOO_LONG =>
      let m1 : Machine := { m with openTime := m.openTime + 1 }
      if digitalReadHigh s = false then
        let m2 : Machine := { m1 with coinCount := m1.coinCount + 1,
                                      state := State.DRAWER_CLOSED,
                                      timeout := cfg.longTimeout, openTime := 0 }
        (tickAux cfg fuel s m2).map
          (fun r => (r.1, Event.publishCount m2.coinCount ::
                          Event.publishText finallyClosedMsg :: r.2))
      else if m1.timeout ≤ m1.openTime then
        some ({ m1 with openTime := 0 }, [Event.publishText keepsOpenMsg])
      else
        some (m1, [])

/-- One tick of the FSM: the chain of handlers run by one timer callback
(fuel 4 is more than the depth of any chain, as proved below). -/
def tick (cfg : Config) (s : SensorState) (m : Machine) : Machine × List Event :=
  (tickAux cfg 4 s m).getD (m, [])

/-- Run a sequence of ticks, one sensor reading per tick, collecting all
published events in order. -/
def run (cfg : Config) (m : Machine) : List SensorState → Machine × List Event
  | [] => (m, [])
  | s :: rest =>
    let r1 := tick cfg s m
    let r2 := run cfg r1.1 rest
    (r2.1, r1.2 ++ r2.2)

/-!
## Exact binary32 model of the float timer

`openTime` in the source is a C `float`.  `F32` represents a nonnegative
binary32 value exactly as `num / 2 ^ exp`; `addF32` is IEEE-754 binary32
addition (round to nearest, ties to even) on the normalized nonnegative
range the sketch's timer lives in (values in `[0, 32)`, far from overflow
and subnormals, so neither needs handling).  The comparison
`openTime >= TIMEOUT` compares the float with the converted integer exactly,
as IEEE comparison does; `3` and `18` convert exactly.
-/

/-- A nonnegative binary32 value, exactly: the rational `num / 2 ^ exp`.
The representation is not canonical, but every operation below computes it
deterministically, so equal runs have equal representations. -/
structure F32 where
  num : Nat
  exp : Nat
deriving DecidableEq, Repr

/-- The binary length of `num` (the number of bits up to its most
significant one), computed by a bounded scan so that it reduces inside the
kernel; valid for `num < 2 ^ 64`, far beyond the timer's range. -/
def bitWidth (num : Nat) : Nat :=
  ((List.range 64).filter (fun s => 2 ^ s ≤ num)).length

/-- Round `num / 2 ^ exp` to 24 significant bits, round-to-nearest
ties-to-even: the rounding step of a binary32 addition of nonnegative
normal-range values. -/
def roundF32 (num exp : Nat) : F32 :=
  if num < 2 ^ 24 then ⟨num, exp⟩
  else
    let shift := bitWidth num - 24
    let q := num / 2 ^ shift
    let r := num % 2 ^ shift
    let half := 2 ^ (shift - 1)
    if half < r ∨ (r = half ∧ q % 2 = 1) then ⟨q + 1, exp - shift⟩
    else ⟨q, exp - shift⟩

/-- Binary32 addition of nonnegative values: align to the finer grid
(exact), add (exact), round to 24 bits. -/
def addF32 (a b : F32) : F32 :=
  let e := max a.exp b.exp
  roundF32 (a.num * 2 ^ (e - a.exp) + b.num * 2 ^ (e - b.exp)) e

/-- The float `0` that the source resets `openTime` to. -/
def zeroF32 : F32 := ⟨0, 0⟩

/-- The float literal `0.1` of `openTime += 0.1`: the binary32 nearest to
one tenth, `13421773 / 2 ^ 27 = 0.100000001490116…`. -/
def pointOneF32 : F32 := ⟨13421773, 27⟩

/-- The source's `openTime >= TIMEOUT`: float against converted int,
an exact comparison of the represented values. -/
def F32.geNat (a : F32) (k : Nat) : Bool := decide (k * 2 ^ a.exp ≤ a.num)

/-- The float timer after `n` executions of `openTime += 0.1` since its
last reset to `0`. -/
def floatAcc : Nat → F32
  | 0 => zeroF32
  | n + 1 => addF32 (floatAcc n) pointOneF32

/-- The source's thresholds as stored: the int `TIMEOUT` values, in seconds
(`18` long, `3` short). -/
structure ConfigF where
  longTimeout : Nat
  shortTimeout : Nat
deriving DecidableEq, Repr

/-- The constants exactly as the source writes them: `TIMEOUT = 18` restored
on closing, `TIMEOUT = 3` set on promotion. -/
def defaultConfigF : ConfigF := ⟨18, 3⟩

/-- The mutable globals with the float `openTime` kept in exact binary32. -/
structure MachineF where
  state : State
  timeout : Nat
  openTime : F32
  coinCount : Nat
deriving DecidableEq, Repr

/-- `tickAux` with the timer in exact binary32: the same three handlers with
the same branch order, publishes and chaining, with `openTime += 0.1` as
`addF32 _ pointOneF32` and `openTime >= TIMEOUT` as `F32.geNat`. -/
def tickAuxF (cfg : ConfigF) : Nat → SensorState → MachineF → Option (MachineF × List Event)
  | 0, _, _ => none
  | fuel + 1, s, m =>
    match m.state with
    | State.DRAWER_CLOSED =>
      let m1 : MachineF := { m with openTime := zeroF32 }
      if digitalReadHigh s then
        tickAuxF cfg fuel s { m1 with state := State.DRAWER_OPEN }
      else
        some (m1, [])
    | State.DRAWER_OPEN =>
      let m1 : MachineF := { m with openTime := addF32 m.openTime pointOneF32 }
      if (m1.openTime).geNat m1.timeout then
        let m2 : MachineF := { m1 with state := State.OPEN_FOR_TOO_LONG,
                                       timeout := cfg.shortTimeout,
                                       openTime := zeroF32 }
        (tickAuxF cfg fuel s m2).map
          (fun r => (r.1, Event.publishText openTooLongMsg :: r.2))
      else if digitalReadHigh s = false then
        let m2 : MachineF := { m1 with coinCount := m1.coinCount + 1,
                                       state := State.DRAWER_CLOSED }
        (tickAuxF cfg fuel s m2).map
          (fun r => (r.1, Event.publishCount m2.coinCount :: r.2))
      else
        some (m1, [])
    | State.OPEN_FOR_TOO_LONG =>
      let m1 : MachineF := { m with openTime := addF32 m.openTime pointOneF32 }
      if digitalReadHigh s = false then
        let m2 : MachineF := { m1 with coinCount := m1.coinCount + 1,
                                       state := State.DRAWER_CLOSED,
                                       timeout := cfg.longTimeout,
                                       openTime := zeroF32 }
        (tickAuxF cfg fuel s m2).map
          (fun r => (r.1, Event.publishCount m2.coinCount ::
                          Event.publishText finallyClosedMsg :: r.2))
      else if (m1.openTime).geNat m1.timeout then
        some ({ m1 with openTime := zeroF32 }, [Event.publishText keepsOpenMsg])
      else
        some (m1, [])

/-- One tick of the float-exact model. -/
def tickF (cfg : ConfigF) (s : SensorState) (m : MachineF) : MachineF × List Event :=
  (tickAuxF cfg 4 s m).getD (m, [])

/-- Run the float-exact model over a reading sequence, collecting all
published events in order. -/
def runF (cfg : ConfigF) (m : MachineF) : List SensorState → MachineF × List Event
  | [] => (m, [])
  | s :: rest =>
    let r1 := tickF cfg s m
    let r2 := runF cfg r1.1 rest
    (r2.1, r1.2 ++ r2.2)

/-!
## Single-tick case analysis

Twelve lemmas characterise `tickAux` on every combination of state, sensor
reading and branch condition, each with the minimal fuel its handler chain
needs.  Together they cover all inputs.
-/

/-- `DRAWER_CLOSED`, light on: stay, zero the timer, no publish. -/
theorem tickAux_closed_on (cfg : Config) (f T t c : Nat) (hf : 1 ≤ f) :
    tickAux cfg f SensorState.LIGHT_ON ⟨State.DRAWER_CLOSED, T, t, c⟩ =
      some (⟨State.DRAWER_CLOSED, T, 0, c⟩, []) := by
  obtain ⟨f1, rfl⟩ : ∃ f1, f = f1 + 1 := ⟨f - 1, by omega⟩
  simp [tickAux, digitalReadHigh]

/-- `OPEN_FOR_TOO_LONG`, light blocked, short threshold not yet reached:
stay, accumulate one tick, no publish. -/
theorem tickAux_stuck_b_stay (cfg : Config) (f T t c : Nat) (hf : 1 ≤ f)
    (h : t + 1 < T) :
    tickAux cfg f SensorState.LIGHT_BLOCKED ⟨State.OPEN_FOR_TOO_LONG, T, t, c⟩ =
      some (⟨State.OPEN_FOR_TOO_LONG, T, t + 1, c⟩, []) := by
  obtain ⟨f1, rfl⟩ : ∃ f1, f = f1 + 1 := ⟨f - 1, by omega⟩
  simp [tickAux, digitalReadHigh, Nat.not_le.mpr h]

/-- `OPEN_FOR_TOO_LONG`, light blocked, threshold reached: publish the
keeps-open text, zero the timer, stay. -/
theorem tickAux_stuck_b_fire (cfg : Config) (f T t c : Nat) (hf : 1 ≤ f)
    (h : T ≤ t + 1) :
    tickAux cfg f SensorState.LIGHT_BLOCKED ⟨State.OPEN_FOR_TOO_LONG, T, t, c⟩ =
      some (⟨State.OPEN_FOR_TOO_LONG, T, 0, c⟩, [Event.publishText keepsOpenMsg]) := by
  obtain ⟨f1, rfl⟩ : ∃ f1, f = f1 + 1 := ⟨f - 1, by omega⟩
  simp [tickAux, digitalReadHigh, h]

/-- `OPEN_FOR_TOO_LONG`, light on: count the coin, publish count then the
finally-closed text, restore the long threshold, land in `DRAWER_CLOSED` with
timer 0. -/
theorem tickAux_stuck_on (cfg : Config) (f T t c : Nat) (hf : 2 ≤ f) :
    tickAux cfg f SensorState.LIGHT_ON ⟨State.OPEN_FOR_TOO_LONG, T, t, c⟩ =
      some (⟨State.DRAWER_CLOSED, cfg.longTimeout, 0, c + 1⟩,
        [Event.publishCount (c + 1), Event.publishText finallyClosedMsg]) := by
  obtain ⟨f1, rfl⟩ : ∃ f1, f = f1 + 1 := ⟨f - 1, by omega⟩
  simp [tickAux, digitalReadHigh]
  rw [tickAux_closed_on cfg f1 cfg.longTimeout 0 (c + 1) (by omega)]

/-- `DRAWER_OPEN`, light blocked, threshold not reached: stay, accumulate. -/
theorem tickAux_open_b_stay (cfg : Config) (f T t c : Nat) (hf : 1 ≤ f)
    (h : t + 1 < T) :
    tickAux cfg f SensorState.LIGHT_BLOCKED ⟨State.DRAWER_OPEN, T, t, c⟩ =
      some (⟨State.DRAWER_OPEN, T, t + 1, c⟩, []) := by
  obtain ⟨f1, rfl⟩ : ∃ f1, f = f1 + 1 := ⟨f - 1, by omega⟩
  simp [tickAux, digitalReadHigh, Nat.not_le.mpr h]

/-- `DRAWER_OPEN`, light on, threshold not reached: count the coin, publish
it, land in `DRAWER_CLOSED` with timer 0. -/
theorem tickAux_open_on_close (cfg : Config) (f T t c : Nat) (hf : 2 ≤ f)
    (h : t + 1 < T) :
    tickAux cfg f SensorState.LIGHT_ON ⟨State.DRAWER_OPEN, T, t, c⟩ =
      some (⟨State.DRAWER_CLOSED, T, 0, c + 1⟩, [Event.publishCount (c + 1)]) := by
  obtain ⟨f1, rfl⟩ : ∃ f1, f = f1 + 1 := ⟨f - 1, by omega⟩
  simp [tickAux, digitalReadHigh, Nat.not_le.mpr h]
  rw [tickAux_closed_on cfg f1 T (t + 1) (c + 1) (by omega)]

/-- `DRAWER_OPEN`, light blocked, threshold reached, short threshold above
one tick: promote, publish the open-too-long text; the chained stuck handler
accumulates one tick. -/
theorem tickAux_open_b_promote_stay (cfg : Config) (f T t c : Nat) (hf : 2 ≤ f)
    (h : T ≤ t + 1) (hs : 2 ≤ cfg.shortTimeout) :
    tickAux cfg f SensorState.LIGHT_BLOCKED ⟨State.DRAWER_OPEN, T, t, c⟩ =
      some (⟨State.OPEN_FOR_TOO_LONG, cfg.shortTimeout, 1, c⟩,
        [Event.publishText openTooLongMsg]) := by
  obtain ⟨f1, rfl⟩ : ∃ f1, f = f1 + 1 := ⟨f - 1, by omega⟩
  simp [tickAux, digitalReadHigh, h]
  rw [tickAux_stuck_b_stay cfg f1 cfg.shortTimeout 0 c (by omega) (by omega)]

/-- `DRAWER_OPEN`, light blocked, threshold reached, degenerate short
threshold of at most one tick: the chained stuck handler immediately fires
the keeps-open text as well. -/
theorem tickAux_open_b_promote_fire (cfg : Config) (f T t c : Nat) (hf : 2 ≤ f)
    (h : T ≤ t + 1) (hs : cfg.shortTimeout ≤ 1) :
    tickAux cfg f SensorState.LIGHT_BLOCKED ⟨State.DRAWER_OPEN, T, t, c⟩ =
      some (⟨State.OPEN_FOR_TOO_LONG, cfg.shortTimeout, 0, c⟩,
        [Event.publishText openTooLongMsg, Event.publishText keepsOpenMsg]) := by
  obtain ⟨f1, rfl⟩ : ∃ f1, f = f1 + 1 := ⟨f - 1, by omega⟩
  simp [tickAux, digitalReadHigh, h]
  rw [tickAux_stuck_b_fire cfg f1 cfg.shortTimeout 0 c (by omega) (by omega)]

/-- `DRAWER_OPEN`, light on, threshold reached: the timeout branch wins, the
chained stuck handler sees the light on and completes the closure — three
publishes and one increment within a single tick. -/
theorem tickAux_open_on_promote (cfg : Config) (f T t c : Nat) (hf : 3 ≤ f)
    (h : T ≤ t + 1) :
    tickAux cfg f SensorState.LIGHT_ON ⟨State.DRAWER_OPEN, T, t, c⟩ =
      some (⟨State.DRAWER_CLOSED, cfg.longTimeout, 0, c + 1⟩,
        [Event.publishText openTooLongMsg, Event.publishCount (c + 1),
         Event.publishText finallyClosedMsg]) := by
  obtain ⟨f1, rfl⟩ : ∃ f1, f = f1 + 1 := ⟨f - 1, by omega⟩
  simp [tickAux, digitalReadHigh, h]
  rw [tickAux_stuck_on cfg f1 cfg.shortTimeout 0 c (by omega)]

/-- `DRAWER_CLOSED`, light blocked, threshold above one tick: go to
`DRAWER_OPEN`; the chained open handler accumulates the first tick. -/
theorem tickAux_closed_b_stay (cfg : Config) (f T t c : Nat) (hf : 2 ≤ f)
    (h : 1 < T) :
    tickAux cfg f SensorState.LIGHT_BLOCKED ⟨State.DRAWER_CLOSED, T, t, c⟩ =
      some (⟨State.DRAWER_OPEN, T, 1, c⟩, []) := by
  obtain ⟨f1, rfl⟩ : ∃ f1, f = f1 + 1 := ⟨f - 1, by omega⟩
  simp [tickAux, digitalReadHigh]
  rw [tickAux_open_b_stay cfg f1 T 0 c (by omega) (by omega)]

/-- `DRAWER_CLOSED`, light blocked, degenerate threshold of at most one
tick, short threshold above one tick: the chain reaches `OPEN_FOR_TOO_LONG`
within the tick. -/
theorem tickAux_closed_b_promote_stay (cfg : Config) (f T t c : Nat) (hf : 3 ≤ f)
    (h : T ≤ 1) (hs : 2 ≤ cfg.shortTimeout) :
    tickAux cfg f SensorState.LIGHT_BLOCKED ⟨State.DRAWER_CLOSED, T, t, c⟩ =
      some (⟨State.OPEN_FOR_TOO_LONG, cfg.shortTimeout, 1, c⟩,
        [Event.publishText openTooLongMsg]) := by
  obtain ⟨f1, rfl⟩ : ∃ f1, f = f1 + 1 := ⟨f - 1, by omega⟩
  simp [tickAux, digitalReadHigh]
  rw [tickAux_open_b_promote_stay cfg f1 T 0 c (by omega) (by omega) hs]

/-- `DRAWER_CLOSED`, light blocked, both thresholds degenerate (at most one
tick): the chain reaches `OPEN_FOR_TOO_LONG` and fires the keeps-open text. -/
theorem tickAux_closed_b_promote_fire (cfg : Config) (f T t c : Nat) (hf : 3 ≤ f)
    (h : T ≤ 1) (hs : cfg.shortTimeout ≤ 1) :
    tickAux cfg f SensorState.LIGHT_BLOCKED ⟨State.DRAWER_CLOSED, T, t, c⟩ =
      some (⟨State.OPEN_FOR_TOO_LONG, cfg.shortTimeout, 0, c⟩,
        [Event.publishText openTooLongMsg, Event.publishText keepsOpenMsg]) := by
  obtain ⟨f1, rfl⟩ : ∃ f1, f = f1 + 1 := ⟨f - 1, by omega⟩
  simp [tickAux, digitalReadHigh]
  rw [tickAux_open_b_promote_fire cfg f1 T 0 c (by omega) (by omega) hs]

/-!
## The same case analysis at the `tick` level
-/

/-- One tick in `DRAWER_CLOSED` with the light on. -/
theorem tick_closed_on (cfg : Config) (T t c : Nat) :
    tick cfg SensorState.LIGHT_ON ⟨State.DRAWER_CLOSED, T, t, c⟩ =
      (⟨State.DRAWER_CLOSED, T, 0, c⟩, []) := by
  unfold tick
  rw [tickAux_closed_on cfg 4 T t c (by omega)]
  rfl

/-- One tick in `OPEN_FOR_TOO_LONG` with the light blocked, below threshold. -/
theorem tick_stuck_b_stay (cfg : Config) (T t c : Nat) (h : t + 1 < T) :
    tick cfg SensorState.LIGHT_BLOCKED ⟨State.OPEN_FOR_TOO_LONG, T, t, c⟩ =
      (⟨State.OPEN_FOR_TOO_LONG, T, t + 1, c⟩, []) := by
  unfold tick
  rw [tickAux_stuck_b_stay cfg 4 T t c (by omega) h]
  rfl

/-- One tick in `OPEN_FOR_TOO_LONG` with the light blocked, at threshold. -/
theorem tick_stuck_b_fire (cfg : Config) (T t c : Nat) (h : T ≤ t + 1) :
    tick cfg SensorState.LIGHT_BLOCKED ⟨State.OPEN_FOR_TOO_LONG, T, t, c⟩ =
      (⟨State.OPEN_FOR_TOO_LONG, T, 0, c⟩, [Event.publishText keepsOpenMsg]) := by
  unfold tick
  rw [tickAux_stuck_b_fire cfg 4 T t c (by omega) h]
  rfl

/-- One tick in `OPEN_FOR_TOO_LONG` with the light on. -/
theorem tick_stuck_on (cfg : Config) (T t c : Nat) :
    tick cfg SensorState.LIGHT_ON ⟨State.OPEN_FOR_TOO_LONG, T, t, c⟩ =
      (⟨State.DRAWER_CLOSED, cfg.longTimeout, 0, c + 1⟩,
        [Event.publishCount (c + 1), Event.publishText finallyClosedMsg]) := by
  unfold tick
  rw [tickAux_stuck_on cfg 4 T t c (by omega)]
  rfl

/-- One tick in `DRAWER_OPEN` with the light blocked, below threshold. -/
theorem tick_open_b_stay (cfg : Config) (T t c : Nat) (h : t + 1 < T) :
    tick cfg SensorState.LIGHT_BLOCKED ⟨State.DRAWER_OPEN, T, t, c⟩ =
      (⟨State.DRAWER_OPEN, T, t + 1, c⟩, []) := by
  unfold tick
  rw [tickAux_open_b_stay cfg 4 T t c (by omega) h]
  rfl

/-- One tick in `DRAWER_OPEN` with the light on, below threshold. -/
theorem tick_open_on_close (cfg : Config) (T t c : Nat) (h : t + 1 < T) :
    tick cfg SensorState.LIGHT_ON ⟨State.DRAWER_OPEN, T, t, c⟩ =
      (⟨State.DRAWER_CLOSED, T, 0, c + 1⟩, [Event.publishCount (c + 1)]) := by
  unfold tick
  rw [tickAux_open_on_close cfg 4 T t c (by omega) h]
  rfl

/-- One tick in `DRAWER_OPEN` with the light blocked, at threshold, short
threshold above one tick. -/
theorem tick_open_b_promote_stay (cfg : Config) (T t c : Nat) (h : T ≤ t + 1)
    (hs : 2 ≤ cfg.shortTimeout) :
    tick cfg SensorState.LIGHT_BLOCKED ⟨State.DRAWER_OPEN, T, t, c⟩ =
      (⟨State.OPEN_FOR_TOO_LONG, cfg.shortTimeout, 1, c⟩,
        [Event.publishText openTooLongMsg]) := by
  unfold tick
  rw [tickAux_open_b_promote_stay cfg 4 T t c (by omega) h hs]
  rfl

/-- One tick in `DRAWER_OPEN` with the light blocked, at threshold, short
threshold at most one tick. -/
theorem tick_open_b_promote_fire (cfg : Config) (T t c : Nat) (h : T ≤ t + 1)
    (hs : cfg.shortTimeout ≤ 1) :
    tick cfg SensorState.LIGHT_BLOCKED ⟨State.DRAWER_OPEN, T, t, c⟩ =
      (⟨State.OPEN_FOR_TOO_LONG, cfg.shortTimeout, 0, c⟩,
        [Event.publishText openTooLongMsg, Event.publishText keepsOpenMsg]) := by
  unfold tick
  rw [tickAux_open_b_promote_fire cfg 4 T t c (by omega) h hs]
  rfl

/-- One tick in `DRAWER_OPEN` with the light on, at threshold: the
promotion-then-closure chain. -/
theorem tick_open_on_promote (cfg : Config) (T t c : Nat) (h : T ≤ t + 1) :
    tick cfg SensorState.LIGHT_ON ⟨State.DRAWER_OPEN, T, t, c⟩ =
      (⟨State.DRAWER_CLOSED, cfg.longTimeout, 0, c + 1⟩,
        [Event.publishText openTooLongMsg, Event.publishCount (c + 1),
         Event.publishText finallyClosedMsg]) := by
  unfold tick
  rw [tickAux_open_on_promote cfg 4 T t c (by omega) h]
  rfl

/-- One tick in `DRAWER_CLOSED` with the light blocked, threshold above one
tick. -/
theorem tick_closed_b_stay (cfg : Config) (T t c : Nat) (h : 1 < T) :
    tick cfg SensorState.LIGHT_BLOCKED ⟨State.DRAWER_CLOSED, T, t, c⟩ =
      (⟨State.DRAWER_OPEN, T, 1, c⟩, []) := by
  unfold tick
  rw [tickAux_closed_b_stay cfg 4 T t c (by omega) h]
  rfl

/-- One tick in `DRAWER_CLOSED` with the light blocked, degenerate threshold,
short threshold above one tick. -/
theorem tick_closed_b_promote_stay (cfg : Config) (T t c : Nat) (h : T ≤ 1)
    (hs : 2 ≤ cfg.shortTimeout) :
    tick cfg SensorState.LIGHT_BLOCKED ⟨State.DRAWER_CLOSED, T, t, c⟩ =
      (⟨State.OPEN_FOR_TOO_LONG, cfg.shortTimeout, 1, c⟩,
        [Event.publishText openTooLongMsg]) := by
  unfold tick
  rw [tickAux_closed_b_promote_stay cfg 4 T t c (by omega) h hs]
  rfl

/-- One tick in `DRAWER_CLOSED` with the light blocked, both thresholds
degenerate. -/
theorem tick_closed_b_promote_fire (cfg : Config) (T t c : Nat) (h : T ≤ 1)
    (hs : cfg.shortTimeout ≤ 1) :
    tick cfg SensorState.LIGHT_BLOCKED ⟨State.DRAWER_CLOSED, T, t, c⟩ =
      (⟨State.OPEN_FOR_TOO_LONG, cfg.shortTimeout, 0, c⟩,
        [Event.publishText openTooLongMsg, Event.publishText keepsOpenMsg]) := by
  unfold tick
  rw [tickAux_closed_b_promote_fire cfg 4 T t c (by omega) h hs]
  rfl

/-!
## Multi-tick runs
-/

/-- Running a concatenated reading sequence runs the pieces in order and
concatenates the published events. -/
theorem run_append (cfg : Config) (m : Machine) (l1 l2 : List SensorState) :
    run cfg m (l1 ++ l2) =
      ((run cfg (run cfg m l1).1 l2).1,
        (run cfg m l1).2 ++ (run cfg (run cfg m l1).1 l2).2) := by
  induction l1 generalizing m with
  | nil => simp [run]
  | cons s rest ih => simp [run, ih]

/-- A blocked tick never changes the coin count, whatever the state. -/
theorem tick_blocked_coinCount (cfg : Config) (m : Machine) :
    ((tick cfg SensorState.LIGHT_BLOCKED m).1).coinCount = m.coinCount := by
  obtain ⟨st, T, t, c⟩ := m
  cases st with
  | DRAWER_CLOSED =>
    rcases le_or_lt T 1 with h | h
    · rcases le_or_lt cfg.shortTimeout 1 with hs | hs
      · rw [tick_closed_b_promote_fire cfg T t c h hs]
      · rw [tick_closed_b_promote_stay cfg T t c h (by omega)]
    · rw [tick_closed_b_stay cfg T t c h]
  | DRAWER_OPEN =>
    rcases le_or_lt T (t + 1) with h | h
    · rcases le_or_lt cfg.shortTimeout 1 with hs | hs
      · rw [tick_open_b_promote_fire cfg T t c h hs]
      · rw [tick_open_b_promote_stay cfg T t c h (by omega)]
    · rw [tick_open_b_stay cfg T t c h]
  | OPEN_FOR_TOO_LONG =>
    rcases le_or_lt T (t + 1) with h | h
    · rw [tick_stuck_b_fire cfg T t c h]
    · rw [tick_stuck_b_stay cfg T t c h]

/-- Any run of blocked ticks leaves the coin count unchanged. -/
theorem run_blocked_coinCount (cfg : Config) (n : Nat) :
    ∀ m : Machine,
      ((run cfg m (List.replicate n SensorState.LIGHT_BLOCKED)).1).coinCount =
        m.coinCount := by
  induction n with
  | zero => intro m; simp [run]
  | succ k ih =>
    intro m
    rw [List.replicate_succ]
    simp only [run]
    rw [ih, tick_blocked_coinCount]

/-- Blocked ticks in `DRAWER_OPEN` below the threshold just accumulate the
timer, one tick each, publishing nothing. -/
theorem run_open_blocked (cfg : Config) (T c : Nat) :
    ∀ (j t : Nat), t + j < T →
      run cfg ⟨State.DRAWER_OPEN, T, t, c⟩
          (List.replicate j SensorState.LIGHT_BLOCKED) =
        (⟨State.DRAWER_OPEN, T, t + j, c⟩, []) := by
  intro j
  induction j with
  | zero => intro t h; simp [run]
  | succ k ih =>
    intro t h
    rw [List.replicate_succ]
    simp only [run]
    rw [tick_open_b_stay cfg T t c (by omega)]
    rw [ih (t + 1) (by omega)]
    have e : t + 1 + k = t + (k + 1) := by omega
    simp [e]

/-- Ticks in `DRAWER_CLOSED` with the light on stay in `DRAWER_CLOSED`,
change nothing but the (meaningless there) timer, and publish nothing. -/
theorem run_closed_on_prefix (cfg : Config) (T c : Nat) :
    ∀ (a t : Nat), ∃ u,
      run cfg ⟨State.DRAWER_CLOSED, T, t, c⟩
          (List.replicate a SensorState.LIGHT_ON) =
        (⟨State.DRAWER_CLOSED, T, u, c⟩, []) := by
  intro a
  induction a with
  | zero => intro t; exact ⟨t, by simp [run]⟩
  | succ k ih =>
    intro t
    obtain ⟨u, hu⟩ := ih 0
    refine ⟨u, ?_⟩
    rw [List.replicate_succ]
    simp only [run]
    rw [tick_closed_on cfg T t c]
    simpa using hu

/-- A blocked tick of the float-exact model in `OPEN_FOR_TOO_LONG`, with
`4 ≥ 1` fuel, below the threshold: accumulate one `0.1f`, publish nothing. -/
theorem tickAuxF_stuck_b_stay (cfg : ConfigF) (f T : Nat) (t : F32) (c : Nat)
    (hf : 1 ≤ f) (h : (addF32 t pointOneF32).geNat T = false) :
    tickAuxF cfg f SensorState.LIGHT_BLOCKED ⟨State.OPEN_FOR_TOO_LONG, T, t, c⟩ =
      some (⟨State.OPEN_FOR_TOO_LONG, T, addF32 t pointOneF32, c⟩, []) := by
  obtain ⟨f1, rfl⟩ : ∃ f1, f = f1 + 1 := ⟨f - 1, by omega⟩
  simp [tickAuxF, digitalReadHigh, h]

/-- A blocked tick of the float-exact model in `OPEN_FOR_TOO_LONG`, at the
threshold: publish the keeps-open text and reset the timer to float `0`. -/
theorem tickAuxF_stuck_b_fire (cfg : ConfigF) (f T : Nat) (t : F32) (c : Nat)
    (hf : 1 ≤ f) (h : (addF32 t pointOneF32).geNat T = true) :
    tickAuxF cfg f SensorState.LIGHT_BLOCKED ⟨State.OPEN_FOR_TOO_LONG, T, t, c⟩ =
      some (⟨State.OPEN_FOR_TOO_LONG, T, zeroF32, c⟩,
        [Event.publishText keepsOpenMsg]) := by
  obtain ⟨f1, rfl⟩ : ∃ f1, f = f1 + 1 := ⟨f - 1, by omega⟩
  simp [tickAuxF, digitalReadHigh, h]

/-- The stay case at the `tickF` level. -/
theorem tickF_stuck_b_stay (cfg : ConfigF) (T : Nat) (t : F32) (c : Nat)
    (h : (addF32 t pointOneF32).geNat T = false) :
    tickF cfg SensorState.LIGHT_BLOCKED ⟨State.OPEN_FOR_TOO_LONG, T, t, c⟩ =
      (⟨State.OPEN_FOR_TOO_LONG, T, addF32 t pointOneF32, c⟩, []) := by
  unfold tickF
  rw [tickAuxF_stuck_b_stay cfg 4 T t c (by omega) h]
  rfl

/-- The fire case at the `tickF` level. -/
theorem tickF_stuck_b_fire (cfg : ConfigF) (T : Nat) (t : F32) (c : Nat)
    (h : (addF32 t pointOneF32).geNat T = true) :
    tickF cfg SensorState.LIGHT_BLOCKED ⟨State.OPEN_FOR_TOO_LONG, T, t, c⟩ =
      (⟨State.OPEN_FOR_TOO_LONG, T, zeroF32, c⟩,
        [Event.publishText keepsOpenMsg]) := by
  unfold tickF
  rw [tickAuxF_stuck_b_fire cfg 4 T t c (by omega) h]
  rfl

set_option maxRecDepth 8000 in
/-- Cadence of the keeps-open publish in the exact binary32 model, at the
source's short threshold `TIMEOUT = 3`: repeated `0.1f` addition first
reaches `3.0` on the 31st increment (the sum of thirty is
`12582909 / 2 ^ 22 < 3`), so from timer `floatAcc j` (`j < 31` increments
since the last reset), `n` blocked ticks leave the FSM stuck with timer
`floatAcc ((j + n) % 31)`, the count untouched, and exactly `(j + n) / 31`
keeps-open publishes. -/
theorem runF_stuck_blocked (c : Nat) :
    ∀ (n j : Nat), j < 31 →
      runF defaultConfigF ⟨State.OPEN_FOR_TOO_LONG, 3, floatAcc j, c⟩
          (List.replicate n SensorState.LIGHT_BLOCKED) =
        (⟨State.OPEN_FOR_TOO_LONG, 3, floatAcc ((j + n) % 31), c⟩,
          List.replicate ((j + n) / 31) (Event.publishText keepsOpenMsg)) := by
  have hlt : ∀ i, i < 31 → (floatAcc i).geNat 3 = false := by decide
  have hge : (floatAcc 31).geNat 3 = true := by decide
  intro n
  induction n with
  | zero =>
    intro j hj
    simp [runF, Nat.mod_eq_of_lt hj, Nat.div_eq_of_lt hj]
  | succ k ih =>
    intro j hj
    rw [List.replicate_succ]
    simp only [runF]
    have e : addF32 (floatAcc j) pointOneF32 = floatAcc (j + 1) := rfl
    rcases Nat.lt_or_ge (j + 1) 31 with h | h
    · rw [tickF_stuck_b_stay defaultConfigF 3 (floatAcc j) c (by rw [e]; exact hlt (j + 1) h)]
      rw [e, ih (j + 1) h]
      have e2 : j + 1 + k = j + (k + 1) := by omega
      simp [e2]
    · have hj30 : j = 30 := by omega
      subst hj30
      rw [tickF_stuck_b_fire defaultConfigF 3 (floatAcc 30) c (by rw [e]; exact hge)]
      have ez : zeroF32 = floatAcc 0 := rfl
      rw [ez, ih 0 (by omega)]
      have e3 : 30 + (k + 1) = 31 + k := by omega
      rw [e3, Nat.add_mod_left, Nat.add_div_left k (by omega)]
      simp [List.replicate_succ]

/-- Running a single reading is a single tick. -/
theorem run_single (cfg : Config) (m : Machine) (s : SensorState) :
    run cfg m [s] = tick cfg s m := by
  simp [run]

/-- From `DRAWER_CLOSED`, a first blocked tick followed by the chained open
handler, then further blocked ticks below the threshold: the timer counts
the blocked ticks. -/
theorem run_closed_then_blocked (cfg : Config) (T t c k : Nat)
    (hk : 1 ≤ k) (hT : k < T) :
    run cfg ⟨State.DRAWER_CLOSED, T, t, c⟩
        (List.replicate k SensorState.LIGHT_BLOCKED) =
      (⟨State.DRAWER_OPEN, T, k, c⟩, []) := by
  obtain ⟨k1, rfl⟩ : ∃ k1, k = k1 + 1 := ⟨k - 1, by omega⟩
  rw [List.replicate_succ]
  simp only [run]
  rw [tick_closed_b_stay cfg T t c (by omega)]
  rw [run_open_blocked cfg T c k1 1 (by omega)]
  simp [Nat.add_comm]

/-!
## The claims

The spec's compressed test configuration: tick period 100 ms, long
threshold 1000 ms = 10 ticks, short threshold 300 ms = 3 ticks.
-/

/-- The compressed-time configuration of the spec's concrete scenario. -/
def scenarioConfig : Config := ⟨10, 3⟩

/-- The spec's concrete scenario readings: light on twice, blocked twelve
times, then on once. -/
def scenarioReadings : List SensorState :=
  List.replicate 2 SensorState.LIGHT_ON ++
  List.replicate 12 SensorState.LIGHT_BLOCKED ++ [SensorState.LIGHT_ON]

/-- Claim C1, counterexample: in the spec's concrete scenario the code does
NOT produce exactly the publish sequence [open-too-long, count 1,
finally-closed] — a keeps-open ("still stuck") publish also fires, because
the handler chained on the promotion tick already accumulated one tick, so
the short threshold (3 ticks) is reached on the twelfth blocked tick. -/
theorem C1_scenario_counterexample :
    ¬ ((run scenarioConfig (initMachine scenarioConfig) scenarioReadings).1.coinCount = 1 ∧
       (run scenarioConfig (initMachine scenarioConfig) scenarioReadings).2 =
         [Event.publishText openTooLongMsg, Event.publishCount 1,
          Event.publishText finallyClosedMsg]) := by
  decide

/-- Claim C1, amended: the scenario ends closed with coin count 1, and the
publishes are, in order: open-too-long (blocked tick 10), keeps-open
(blocked tick 12), the count 1, finally-closed. -/
theorem C1_scenario_amended :
    run scenarioConfig (initMachine scenarioConfig) scenarioReadings =
      (⟨State.DRAWER_CLOSED, 10, 0, 1⟩,
        [Event.publishText openTooLongMsg, Event.publishText keepsOpenMsg,
         Event.publishCount 1, Event.publishText finallyClosedMsg]) := by
  decide

/-- Claim C2, counterexample: a single tick can publish three times — in
`DRAWER_OPEN`, when the timer crosses the threshold on a tick whose reading
is light-on, the promotion publish is chained with the stuck-recovery pair. -/
theorem C2_three_publishes_counterexample :
    2 < (tick defaultConfig SensorState.LIGHT_ON
          ⟨State.DRAWER_OPEN, 180, 179, 0⟩).2.length := by
  decide

/-- Claim C2, amended: a single tick publishes at most three times, for
every configuration, state, timer, threshold and reading. -/
theorem C2_at_most_three_publishes (cfg : Config) (s : SensorState) (m : Machine) :
    (tick cfg s m).2.length ≤ 3 := by
  obtain ⟨st, T, t, c⟩ := m
  cases s with
  | LIGHT_ON =>
    cases st with
    | DRAWER_CLOSED => rw [tick_closed_on cfg T t c]; simp
    | DRAWER_OPEN =>
      rcases le_or_lt T (t + 1) with h | h
      · rw [tick_open_on_promote cfg T t c h]; simp
      · rw [tick_open_on_close cfg T t c h]; simp
    | OPEN_FOR_TOO_LONG => rw [tick_stuck_on cfg T t c]; simp
  | LIGHT_BLOCKED =>
    cases st with
    | DRAWER_CLOSED =>
      rcases le_or_lt T 1 with h | h
      · rcases le_or_lt cfg.shortTimeout 1 with hs | hs
        · rw [tick_closed_b_promote_fire cfg T t c h hs]; simp
        · rw [tick_closed_b_promote_stay cfg T t c h (by omega)]; simp
      · rw [tick_closed_b_stay cfg T t c h]; simp
    | DRAWER_OPEN =>
      rcases le_or_lt T (t + 1) with h | h
      · rcases le_or_lt cfg.shortTimeout 1 with hs | hs
        · rw [tick_open_b_promote_fire cfg T t c h hs]; simp
        · rw [tick_open_b_promote_stay cfg T t c h (by omega)]; simp
      · rw [tick_open_b_stay cfg T t c h]; simp
    | OPEN_FOR_TOO_LONG =>
      rcases le_or_lt T (t + 1) with h | h
      · rw [tick_stuck_b_fire cfg T t c h]; simp
      · rw [tick_stuck_b_stay cfg T t c h]; simp

/-- Claim C3, counterexample: starting open with the timer exactly at the
long threshold under a blocked reading, the promoting tick does NOT leave
the timer at 0 — the chained stuck handler accumulates one tick, leaving 1. -/
theorem C3_timer_not_zero_counterexample :
    ¬ ((tick defaultConfig SensorState.LIGHT_BLOCKED
          ⟨State.DRAWER_OPEN, 180, 180, 0⟩).1.state = State.OPEN_FOR_TOO_LONG ∧
       (tick defaultConfig SensorState.LIGHT_BLOCKED
          ⟨State.DRAWER_OPEN, 180, 180, 0⟩).2 = [Event.publishText openTooLongMsg] ∧
       (tick defaultConfig SensorState.LIGHT_BLOCKED
          ⟨State.DRAWER_OPEN, 180, 180, 0⟩).1.openTime = 0) := by
  decide

/-- Claim C3, amended: from `DRAWER_OPEN` with the timer at exactly the long
threshold and the light blocked, the next tick promotes to
`OPEN_FOR_TOO_LONG` with exactly one text publish (open-too-long); the timer
is reset at the promotion but the stuck handler chained within the same tick
accumulates one tick increment, so it ends the tick at 1, not 0 (whenever
the short threshold exceeds one tick, as the code's 3 s does). -/
theorem C3_timeout_promotion_amended (cfg : Config) (c : Nat)
    (hs : 2 ≤ cfg.shortTimeout) :
    tick cfg SensorState.LIGHT_BLOCKED
        ⟨State.DRAWER_OPEN, cfg.longTimeout, cfg.longTimeout, c⟩ =
      (⟨State.OPEN_FOR_TOO_LONG, cfg.shortTimeout, 1, c⟩,
        [Event.publishText openTooLongMsg]) :=
  tick_open_b_promote_stay cfg cfg.longTimeout cfg.longTimeout c (by omega) hs

/-- Claim C3 witness: the amended statement at the source's constants. -/
theorem C3_timeout_promotion_amended_witness :
    tick defaultConfig SensorState.LIGHT_BLOCKED
        ⟨State.DRAWER_OPEN, 180, 180, 0⟩ =
      (⟨State.OPEN_FOR_TOO_LONG, 30, 1, 0⟩, [Event.publishText openTooLongMsg]) :=
  C3_timeout_promotion_amended defaultConfig 0 (by decide)

set_option maxRecDepth 4000 in
/-- Claim C4 (code bug in the source): with the source's constants
(`TIMEOUT = 18`, `0.1` accumulated per 100 ms tick), the first stuck
detection fires on the 180th blocked tick after opening — 18 seconds of
elapsed open time, not the 30 minutes the source's own comments promise
("timeout of 30 minutes", "reset the TIMEOUT to 1800 seconds"); likewise the
re-notification interval is 30 ticks = 3 seconds, not 5 minutes.  This
theorem evaluates the embedded code at that input: still open after 179
blocked ticks, promoted with the open-too-long publish on the 180th. -/
theorem C4_stuck_detection_at_180_ticks :
    (run defaultConfig ⟨State.DRAWER_OPEN, 180, 0, 0⟩
        (List.replicate 179 SensorState.LIGHT_BLOCKED)).1.state = State.DRAWER_OPEN ∧
    run defaultConfig ⟨State.DRAWER_OPEN, 180, 0, 0⟩
        (List.replicate 180 SensorState.LIGHT_BLOCKED) =
      (⟨State.OPEN_FOR_TOO_LONG, 30, 1, 0⟩, [Event.publishText openTooLongMsg]) := by
  constructor
  · decide
  · decide

/-- Claim C5: any one-coin cycle — some light-on ticks while closed, `k ≥ 1`
blocked ticks (the timer never reaching the long threshold), then a light-on
tick — increments the count by exactly one, and the whole cycle publishes
exactly one event: the numeric publish, carrying the already-incremented
count (so the increment happens before its publish). -/
theorem C5_single_increment_per_cycle (cfg : Config) (a k t0 c0 : Nat)
    (hk : 1 ≤ k) (hlong : k + 1 < cfg.longTimeout) :
    run cfg ⟨State.DRAWER_CLOSED, cfg.longTimeout, t0, c0⟩
        (List.replicate a SensorState.LIGHT_ON ++
         List.replicate k SensorState.LIGHT_BLOCKED ++ [SensorState.LIGHT_ON]) =
      (⟨State.DRAWER_CLOSED, cfg.longTimeout, 0, c0 + 1⟩,
        [Event.publishCount (c0 + 1)]) := by
  obtain ⟨u, hu⟩ := run_closed_on_prefix cfg cfg.longTimeout c0 a t0
  rw [run_append, run_append, hu]
  simp only
  rw [run_closed_then_blocked cfg cfg.longTimeout u c0 k hk (by omega)]
  simp only
  rw [run_single, tick_open_on_close cfg cfg.longTimeout k c0 (by omega)]
  simp

/-- Claim C5 witness: a one-tick-open cycle in the compressed scenario
configuration. -/
theorem C5_single_increment_per_cycle_witness :
    run scenarioConfig ⟨State.DRAWER_CLOSED, 10, 0, 0⟩
        (List.replicate 1 SensorState.LIGHT_ON ++
         List.replicate 1 SensorState.LIGHT_BLOCKED ++ [SensorState.LIGHT_ON]) =
      (⟨State.DRAWER_CLOSED, 10, 0, 1⟩, [Event.publishCount 1]) :=
  C5_single_increment_per_cycle scenarioConfig 1 1 0 0 (by omega) (by decide)

/-- Claim C6: from `OPEN_FOR_TOO_LONG`, a light-on tick closes the drawer —
count incremented by exactly one, the numeric publish (of the incremented
count) then the finally-closed text in that order and nothing else, timer 0
at the end of the tick, and the long threshold restored — for every
configuration, threshold, timer and count. -/
theorem C6_recovery_from_stuck (cfg : Config) (T t c : Nat) :
    tick cfg SensorState.LIGHT_ON ⟨State.OPEN_FOR_TOO_LONG, T, t, c⟩ =
      (⟨State.DRAWER_CLOSED, cfg.longTimeout, 0, c + 1⟩,
        [Event.publishCount (c + 1), Event.publishText finallyClosedMsg]) :=
  tick_stuck_on cfg T t c

/-- Claim C7: from `DRAWER_OPEN`, any number of consecutive blocked ticks —
including any promotion to `OPEN_FOR_TOO_LONG` along the way — leaves the
coin count unchanged; only a light-on reading can change it. -/
theorem C7_no_double_count (cfg : Config) (T t c n : Nat) :
    ((run cfg ⟨State.DRAWER_OPEN, T, t, c⟩
        (List.replicate n SensorState.LIGHT_BLOCKED)).1).coinCount = c :=
  run_blocked_coinCount cfg n ⟨State.DRAWER_OPEN, T, t, c⟩

/-- Claim C8 (code bug in the source): while stuck with the sensor blocked,
the state does stay `OPEN_FOR_TOO_LONG` and the count never changes, but the
keeps-open ("still stuck") text fires every 31 ticks, not every
short-threshold / tick-period = 30 ticks: the float `openTime` accumulates
`0.1f` to only `2.9999992…` after 30 increments, so `openTime >= TIMEOUT`
first holds on the 31st tick after each reset.  This theorem evaluates the
exact binary32 model from a fresh reset: `n` blocked ticks publish exactly
`n / 31` keeps-open texts (in particular, none in the first 30), leave the
state stuck and the count untouched. -/
theorem C8_float_stuck_cadence (c n : Nat) :
    runF defaultConfigF ⟨State.OPEN_FOR_TOO_LONG, 3, floatAcc 0, c⟩
        (List.replicate n SensorState.LIGHT_BLOCKED) =
      (⟨State.OPEN_FOR_TOO_LONG, 3, floatAcc (n % 31), c⟩,
        List.replicate (n / 31) (Event.publishText keepsOpenMsg)) := by
  have h := runF_stuck_blocked c n 0 (by omega)
  simpa using h

/-- Claim C9: the chain of handler calls within one tick is finite — fuel 3
already suffices for every configuration, reading, state, threshold, timer
and count, and every larger fuel computes the same result, which is always
defined (`some`), namely what `tick` returns. -/
theorem C9_tick_total (cfg : Config) (s : SensorState) (m : Machine)
    (f : Nat) (hf : 3 ≤ f) :
    tickAux cfg f s m = some (tick cfg s m) := by
  obtain ⟨st, T, t, c⟩ := m
  cases s with
  | LIGHT_ON =>
    cases st with
    | DRAWER_CLOSED =>
      rw [tickAux_closed_on cfg f T t c (by omega), tick_closed_on]
    | DRAWER_OPEN =>
      rcases le_or_lt T (t + 1) with h | h
      · rw [tickAux_open_on_promote cfg f T t c hf h, tick_open_on_promote cfg T t c h]
      · rw [tickAux_open_on_close cfg f T t c (by omega) h,
            tick_open_on_close cfg T t c h]
    | OPEN_FOR_TOO_LONG =>
      rw [tickAux_stuck_on cfg f T t c (by omega), tick_stuck_on]
  | LIGHT_BLOCKED =>
    cases st with
    | DRAWER_CLOSED =>
      rcases le_or_lt T 1 with h | h
      · rcases le_or_lt cfg.shortTimeout 1 with hs | hs
        · rw [tickAux_closed_b_promote_fire cfg f T t c hf h hs,
              tick_closed_b_promote_fire cfg T t c h hs]
        · rw [tickAux_closed_b_promote_stay cfg f T t c hf h (by omega),
              tick_closed_b_promote_stay cfg T t c h (by omega)]
      · rw [tickAux_closed_b_stay cfg f T t c (by omega) h,
            tick_closed_b_stay cfg T t c h]
    | DRAWER_OPEN =>
      rcases le_or_lt T (t + 1) with h | h
      · rcases le_or_lt cfg.shortTimeout 1 with hs | hs
        · rw [tickAux_open_b_promote_fire cfg f T t c (by omega) h hs,
              tick_open_b_promote_fire cfg T t c h hs]
        · rw [tickAux_open_b_promote_stay cfg f T t c (by omega) h (by omega),
              tick_open_b_promote_stay cfg T t c h (by omega)]
      · rw [tickAux_open_b_stay cfg f T t c (by omega) h,
            tick_open_b_stay cfg T t c h]
    | OPEN_FOR_TOO_LONG =>
      rcases le_or_lt T (t + 1) with h | h
      · rw [tickAux_stuck_b_fire cfg f T t c (by omega) h,
            tick_stuck_b_fire cfg T t c h]
      · rw [tickAux_stuck_b_stay cfg f T t c (by omega) h,
            tick_stuck_b_stay cfg T t c h]

/-- Claim C9 witness: fuel 3 already computes the worst-case chain (the
promotion-then-closure tick). -/
theorem C9_tick_total_witness :
    tickAux defaultConfig 3 SensorState.LIGHT_ON ⟨State.DRAWER_OPEN, 180, 179, 0⟩ =
      some (tick defaultConfig SensorState.LIGHT_ON
        ⟨State.DRAWER_OPEN, 180, 179, 0⟩) :=
  C9_tick_total defaultConfig SensorState.LIGHT_ON
    ⟨State.DRAWER_OPEN, 180, 179, 0⟩ 3 (by omega)

/-- Claim C10: in `DRAWER_OPEN` the timeout check precedes the closed check;
when the timer reaches the active threshold on a light-on tick, the single
tick promotes (publishing open-too-long), then the chained stuck handler
observes the light and completes the closure — one increment and three
publishes, in the order open-too-long, count, finally-closed. -/
theorem C10_timeout_precedence (cfg : Config) (T t c : Nat) (h : T ≤ t + 1) :
    tick cfg SensorState.LIGHT_ON ⟨State.DRAWER_OPEN, T, t, c⟩ =
      (⟨State.DRAWER_CLOSED, cfg.longTimeout, 0, c + 1⟩,
        [Event.publishText openTooLongMsg, Event.publishCount (c + 1),
         Event.publishText finallyClosedMsg]) :=
  tick_open_on_promote cfg T t c h

/-- Claim C10 witness: the three-publish tick at the source's constants. -/
theorem C10_timeout_precedence_witness :
    tick defaultConfig SensorState.LIGHT_ON ⟨State.DRAWER_OPEN, 180, 179, 0⟩ =
      (⟨State.DRAWER_CLOSED, 180, 0, 1⟩,
        [Event.publishText openTooLongMsg, Event.publishCount 1,
         Event.publishText finallyClosedMsg]) :=
  C10_timeout_precedence defaultConfig 180 179 0 (by omega)

end CoinFSM
